import Mathlib

/-!
Verification of the heuristic mood/posture classifiers and the task/AI HTTP
handlers of the Ria wellness application.

The embedding follows the TypeScript sources:
  * `client/src/lib/faceDetection.ts`        (smile / mood heuristics)
  * `client/src/lib/lightweightFaceDetection.ts` (face-api expression argmax)
  * `client/src/lib/lightweightPoseDetection.ts` (posture heuristics)
  * `client/src/components/CameraTools.tsx`  (rolling history update)
  * `server/routes.ts`                       (task CRUD / AI endpoints)

Numbers are modelled as rationals (the sources use JS numbers in ranges where
no rounding can cross the fixed thresholds); timestamps as naturals.  Each
effectful step of a handler (database call, external fetch) is passed in as an
explicit `Except` outcome, so a handler is a total function of its request and
of the outcome of every effect it performs.
-/

namespace Ria

/-- JS `String.prototype.includes pat`: `pat` occurs as a contiguous substring. -/
def strContains (s pat : String) : Bool :=
  (s.toList.tails).any (fun t => pat.toList.isPrefixOf t)

/-! ### faceDetection.ts -/

/-- A MediaPipe face landmark (interface `FaceLandmark`). -/
structure FaceLandmark where
  x : ℚ
  y : ℚ
  z : ℚ
deriving DecidableEq

/-- `detectSmile` from faceDetection.ts.  The source compares
`mouthWidth / mouthHeight > 3.5` where both quantities are Euclidean norms
(square roots of sums of squares).  Since both norms are nonnegative, the
comparison is equivalent to `mouthWidth² > 3.5² * mouthHeight²`, which also
reproduces the JS behaviour at `mouthHeight = 0` (`w/0 = Infinity > 3.5` iff
`w > 0`, and `0/0 = NaN` is not `> 3.5`).  We therefore compare the squared
quantities, keeping everything inside ℚ. -/
def detectSmile (landmarks : List FaceLandmark) : Bool :=
  if landmarks.length < 468 then false
  else
    match landmarks[61]?, landmarks[291]?, landmarks[13]?, landmarks[14]?, landmarks[1]? with
    | some lm, some rm, some ul, some ll, some nt =>
      let mouthWidthSq := (rm.x - lm.x)^2 + (rm.y - lm.y)^2
      let mouthHeightSq := (ul.x - ll.x)^2 + (ul.y - ll.y)^2
      let mouthCenterY := (lm.y + rm.y) / 2
      let mouthCornerElevation := nt.y - mouthCenterY
      decide (mouthWidthSq > (49/4 : ℚ) * mouthHeightSq ∧ mouthCornerElevation > 1/20)
    | _, _, _, _, _ => false  -- unreachable: all five indices are < 468

/-- One blendshape category (`shape.categoryName`, `shape.score`). -/
structure BlendCategory where
  categoryName : String
  score : ℚ
deriving DecidableEq

/-- One entry of the `blendshapes` array (`blendshapes[0].categories`). -/
structure BlendEntry where
  categories : List BlendCategory
deriving DecidableEq

/-- The scan loop of `classifyMood` over `shapes`: records the `mouthSmile`
and `mouthFrown` scores, with the source's early exit once both are `> 0`. -/
def scanBlendLoop : List BlendCategory → ℚ → ℚ → ℚ × ℚ
  | [], smileScore, frownScore => (smileScore, frownScore)
  | c :: rest, smileScore, frownScore =>
    let smileScore' := if c.categoryName = "mouthSmile" then c.score else smileScore
    let frownScore' :=
      if c.categoryName = "mouthSmile" then frownScore
      else if c.categoryName = "mouthFrown" then c.score else frownScore
    if smileScore' > 0 ∧ frownScore' > 0 then (smileScore', frownScore')
    else scanBlendLoop rest smileScore' frownScore'

/-- The eyebrow branch of `classifyMood` (lines 149-164 of faceDetection.ts):
`some` models an early `return`, `none` falling through to `'Neutral'`. -/
def moodFromEyebrows (landmarks : List FaceLandmark) : Option String :=
  if landmarks.length ≥ 300 then
    match landmarks[70]?, landmarks[300]?, landmarks[1]?, landmarks[152]? with
    | some leftEyebrow, some rightEyebrow, some noseTip, some chin =>
      let eyebrowHeight := (leftEyebrow.y + rightEyebrow.y) / 2
      let faceHeight := |noseTip.y - chin.y|
      if faceHeight > 0 then
        let eyebrowValue := (noseTip.y - eyebrowHeight) / faceHeight
        if eyebrowValue < 3/10 then some "Stressed"
        else if eyebrowValue < 4/10 then some "Sad"
        else none
      else none
    | _, _, _, _ => none  -- the source's `if (leftEyebrow && rightEyebrow && noseTip && chin)`
  else none

/-- The landmark-only tail of `classifyMood` (after the blendshape branch). -/
def moodFromLandmarks (landmarks : List FaceLandmark) : String :=
  if detectSmile landmarks then "Happy"
  else (moodFromEyebrows landmarks).getD "Neutral"

/-- `classifyMood` from faceDetection.ts.  Returns one of the `MoodType`
string literals.  The early-return control flow of the source is expressed by
falling through the helper functions above. -/
def classifyMood (landmarks : List FaceLandmark) (blendshapes : Option (List BlendEntry)) :
    String :=
  if landmarks.length < 10 then "Analyzing..."
  else
    match blendshapes with
    | some (b0 :: _) =>
      let scores := scanBlendLoop b0.categories 0 0
      if scores.1 > 3/10 then "Happy"
      else if scores.2 > 3/10 then "Sad"
      else moodFromLandmarks landmarks
    | _ => moodFromLandmarks landmarks

/-- The canned encouragement pools of `generateEncouragement`. -/
def encouragements (mood : String) : List String :=
  match mood with
  | "Happy" =>
    ["🌟 Amazing! Your smile is beautiful! Keep that positive energy flowing!",
     "😊 You\x27re glowing! That smile looks great on you!",
     "✨ Wonderful! Your happiness is contagious!",
     "🎉 Perfect! You\x27re radiating positive vibes!"]
  | "Sad" =>
    ["🤗 I know it might be hard, but try smiling! It really helps!",
     "💙 Even a small smile can make a difference. You\x27ve got this!",
     "🌸 Smiling releases serotonin - give it a try, even if you don\x27t feel like it!",
     "🌟 Your smile matters! Let\x27s turn that frown upside down!"]
  | "Stressed" =>
    ["🧘 Take a deep breath and smile! It\x27ll help reduce stress hormones!",
     "💆 Relax those facial muscles and smile! You\x27re doing great!",
     "🌺 A smile can lower cortisol levels. Give it a try!",
     "✨ Let go of that tension with a smile! You deserve to feel better!"]
  | "Analyzing..." =>
    ["👀 Looking at your expression...",
     "🔍 Analyzing your mood...",
     "⏳ Just a moment, reading your face..."]
  | _ =>
    -- `encouragements[mood] || encouragements['Neutral']`
    ["😊 Try giving us a smile! Even a forced smile releases endorphins!",
     "🌈 Come on, you can do it! A smile can change your whole mood!",
     "💪 Let\x27s see that smile! Your brain will thank you for it!",
     "✨ Smile for me! It\x27s scientifically proven to boost your mood!"]

/-- `generateEncouragement`.  The source picks
`messages[Math.floor(Math.random() * messages.length)]`; the random draw is
made explicit as a seed `r`, reduced modulo the pool size. -/
def generateEncouragement (mood : String) (r : Nat) : String :=
  let messages := encouragements mood
  messages.getD (r % messages.length) ""

/-- Result record of `analyzeMood`. -/
structure MoodResult where
  mood : String
  confidence : ℚ
  isSmilingFlag : Bool
  encouragement : String
deriving DecidableEq

/-- `analyzeMood` from faceDetection.ts, with the random draw as explicit seed `r`. -/
def analyzeMood (landmarks : List FaceLandmark) (blendshapes : Option (List BlendEntry))
    (r : Nat) : MoodResult :=
  { mood := classifyMood landmarks blendshapes
    confidence := if landmarks.length ≥ 468 then 85/100 else 1/2
    isSmilingFlag := detectSmile landmarks
    encouragement := generateEncouragement (classifyMood landmarks blendshapes) r }

/-! ### lightweightFaceDetection.ts -/

/-- face-api `FaceExpressions`: the seven class probabilities, in the order in
which the library declares them (the iteration order of `Object.entries`). -/
structure FaceExpressions where
  neutral : ℚ
  happy : ℚ
  sad : ℚ
  angry : ℚ
  fearful : ℚ
  disgusted : ℚ
  surprised : ℚ
deriving DecidableEq

/-- `Object.entries(expressions)` in declaration order. -/
def expressionEntries (e : FaceExpressions) : List (String × ℚ) :=
  [("neutral", e.neutral), ("happy", e.happy), ("sad", e.sad), ("angry", e.angry),
   ("fearful", e.fearful), ("disgusted", e.disgusted), ("surprised", e.surprised)]

/-- The argmax loop of `detectEmotion`: start from `('neutral', expressions.neutral)`
and replace the maximum on strict improvement. -/
def maxExpression (e : FaceExpressions) : String × ℚ :=
  (expressionEntries e).foldl
    (fun m kv => if kv.2 > m.2 then kv else m) ("neutral", e.neutral)

/-- The `emotionMap` lookup table of `detectEmotion`. -/
def emotionMap : String → Option String
  | "happy" => some "Happy"
  | "sad" => some "Sad"
  | "angry" => some "Angry"
  | "neutral" => some "Neutral"
  | "surprised" => some "Surprised"
  | "disgusted" => some "Stressed"
  | "fearful" => some "Stressed"
  | _ => none

/-- Result record of `detectEmotion` (interface `EmotionResult`). -/
structure EmotionResult where
  expression : String
  probability : ℚ
deriving DecidableEq

/-- `detectEmotion` from lightweightFaceDetection.ts, abstracted over the
detection step: `none` models `detectSingleFace` returning no detection (the
source then returns `null`), `some e` a detection with expression scores `e`. -/
def detectEmotion (detection : Option FaceExpressions) : Option EmotionResult :=
  match detection with
  | none => none
  | some e =>
    let m := maxExpression e
    some { expression := (emotionMap m.1).getD "Neutral", probability := m.2 }

/-! ### lightweightPoseDetection.ts -/

/-- A MoveNet keypoint (only the fields the classifier reads). -/
structure Keypoint where
  name : String
  x : ℚ
  y : ℚ
deriving DecidableEq

/-- A detected pose. -/
structure Pose where
  keypoints : List Keypoint
deriving DecidableEq

/-- Result record of `analyzePosture` (interface `PostureStatus`). -/
structure PostureStatus where
  status : String
  score : ℚ
  issues : List String
deriving DecidableEq

/-- `keypoints.find(kp => kp.name === n)`. -/
def findKp (kps : List Keypoint) (n : String) : Option Keypoint :=
  kps.find? (fun kp => kp.name = n)

/-- `analyzePosture` from lightweightPoseDetection.ts. -/
def analyzePosture (poses : List Pose) : PostureStatus :=
  match poses with
  | [] => { status := "good", score := 0, issues := ["No pose detected"] }
  | pose :: _ =>
    let keypoints := pose.keypoints
    match findKp keypoints "nose", findKp keypoints "left_shoulder",
          findKp keypoints "right_shoulder", findKp keypoints "left_hip",
          findKp keypoints "right_hip" with
    | some nose, some leftShoulder, some rightShoulder, some leftHip, some rightHip =>
      let shoulderMidY := (leftShoulder.y + rightShoulder.y) / 2
      let hipMidY := (leftHip.y + rightHip.y) / 2
      let torsoLength := |shoulderMidY - hipMidY|
      let issues1 : List String := if torsoLength < 150 then ["Slouching detected"] else []
      let score1 : ℚ := if torsoLength < 150 then 100 - 30 else 100
      let shoulderDiff := |leftShoulder.y - rightShoulder.y|
      let issues2 := issues1 ++
        (if shoulderDiff > 20 then
          [if leftShoulder.y > rightShoulder.y then "Leaning left" else "Leaning right"]
         else [])
      let score2 := if shoulderDiff > 20 then score1 - 20 else score1
      let shoulderMidX := (leftShoulder.x + rightShoulder.x) / 2
      let headForward := |nose.x - shoulderMidX|
      let issues3 := issues2 ++ (if headForward > 30 then ["Forward head posture"] else [])
      let score3 := if headForward > 30 then score2 - 25 else score2
      let status :=
        if issues3.any (fun i => strContains i "Slouching") then "slouching"
        else if issues3.any (fun i => strContains i "Leaning left") then "leaning_left"
        else if issues3.any (fun i => strContains i "Leaning right") then "leaning_right"
        else if issues3.any (fun i => strContains i "Forward head") then "forward_head"
        else "good"
      { status := status, score := max 0 score3,
        issues := if issues3.length > 0 then issues3 else [] }
    | _, _, _, _, _ =>
      { status := "good", score := 0, issues := ["Insufficient keypoints detected"] }

/-! ### CameraTools.tsx — rolling history -/

/-- One entry of the mood/posture history list kept by `CameraTools`. -/
structure HistoryEntry where
  time : String
  label : String
  htype : String
  suggestion : String
deriving DecidableEq

/-- The `setHistory(prev => ...)` updater used by both the mood loop and the
posture loop of CameraTools.tsx: when there is no last entry, or the last
entry differs in time or label, append the new entry after `prev.slice(-19)`
(the 19 most recent entries); otherwise leave the history unchanged. -/
def historyUpdate (prev : List HistoryEntry) (e : HistoryEntry) : List HistoryEntry :=
  match prev.getLast? with
  | none => prev.drop (prev.length - 19) ++ [e]
  | some lastEntry =>
    if lastEntry.time ≠ e.time ∨ lastEntry.label ≠ e.label then
      prev.drop (prev.length - 19) ++ [e]
    else prev

/-- `startAnalysis` does `setHistory([])`: the history an analysis run starts from. -/
def startHistory : List HistoryEntry := []

/-! ### server/routes.ts -/

/-- A task document as written to the `tasks` collection.  `xpReward` is
optional because the complete endpoint reads documents that may lack it; the
planner additionally writes `category` and `autoGenerated`. -/
structure TaskDoc where
  userId : String
  title : String
  description : String
  scheduledTime : Nat
  duration : Nat
  xpReward : Option Nat
  category : Option String
  autoGenerated : Bool
  completed : Bool
  notificationSent : Bool
  createdAt : Nat
  updatedAt : Nat
deriving DecidableEq

/-- A stored document together with its Firestore id. -/
structure StoredTask where
  id : String
  doc : TaskDoc
deriving DecidableEq

/-- The `tasks` collection. -/
abbrev Store := List StoredTask

/-- The output of `insertTaskSchema.parse` as used by the creation endpoints. -/
structure ValidatedTask where
  title : String
  description : String
  scheduledTime : Nat
  duration : Nat
  xpReward : Nat
deriving DecidableEq

/-- The task object written by `POST /api/tasks` (routes.ts lines 57-65). -/
def createTaskDoc (userId : String) (v : ValidatedTask) (now : Nat) : TaskDoc :=
  { userId := userId, title := v.title, description := v.description
    scheduledTime := v.scheduledTime, duration := v.duration, xpReward := some v.xpReward
    category := none, autoGenerated := false
    completed := false, notificationSent := false, createdAt := now, updatedAt := now }

/-- The task object written by `POST /api/ai/parse-task` (routes.ts lines 248-256). -/
def parseTaskDoc (userId : String) (v : ValidatedTask) (now : Nat) : TaskDoc :=
  { userId := userId, title := v.title, description := v.description
    scheduledTime := v.scheduledTime, duration := v.duration, xpReward := some v.xpReward
    category := none, autoGenerated := false
    completed := false, notificationSent := false, createdAt := now, updatedAt := now }

/-- The task object written by the task-detection branch of `POST /api/chat`
(routes.ts lines 358-366). -/
def chatTaskDoc (userId : String) (v : ValidatedTask) (now : Nat) : TaskDoc :=
  { userId := userId, title := v.title, description := v.description
    scheduledTime := v.scheduledTime, duration := v.duration, xpReward := some v.xpReward
    category := none, autoGenerated := false
    completed := false, notificationSent := false, createdAt := now, updatedAt := now }

/-- One task of a day of the AI-generated week plan. -/
structure PlanTask where
  title : String
  description : String
  hours : Nat
  minutes : Nat
  duration : Nat
  category : String
  xpReward : Nat
deriving DecidableEq

/-- One day of the AI-generated week plan; `date` as an instant. -/
structure DayPlan where
  date : Nat
  tasks : List PlanTask
deriving DecidableEq

/-- `new Date(dayPlan.date)` followed by `setHours(hours, minutes)`, as
instant arithmetic in seconds. -/
def taskDateOf (date hours minutes : Nat) : Nat :=
  date + hours * 3600 + minutes * 60

/-- The task object written by `POST /api/planner/generate` (routes.ts lines
561-574).  The source evaluates `Timestamp.now()` twice, once for `createdAt`
and once for `updatedAt`; these two clock readings are the explicit
parameters `tCreated` and `tUpdated`. -/
def plannerTaskDoc (userId : String) (d : DayPlan) (t : PlanTask)
    (tCreated tUpdated : Nat) : TaskDoc :=
  { userId := userId, title := t.title, description := t.description
    scheduledTime := taskDateOf d.date t.hours t.minutes, duration := t.duration
    xpReward := some t.xpReward, category := some t.category, autoGenerated := true
    completed := false, notificationSent := false
    createdAt := tCreated, updatedAt := tUpdated }

/-- Response bodies produced by the handlers. -/
inductive RespBody where
  | jsonError (msg : String)
  | chatFail (msg reply : String)
  | tasksList (tasks : List StoredTask)
  | taskOk (id : String) (doc : TaskDoc)
  | successOk (id : String)
  | completeOk (id : String) (xpReward : Nat)
  | chatOk (reply : String) (created : Option TaskDoc)
  | plannerOk (tasksCreated : Nat)
deriving DecidableEq

/-- An HTTP response: status code and JSON body. -/
structure Response where
  status : Nat
  body : RespBody
deriving DecidableEq

/-- Whether a body is one of the JSON error payloads built in a `catch` (or an
in-handler `res.status(4xx)` branch). -/
def isErrorBody : RespBody → Bool
  | .jsonError _ => true
  | .chatFail _ _ => true
  | _ => false

/-- JS `error.message || default` (the empty message is falsy). -/
def msgOr (e dflt : String) : String := if e = "" then dflt else e

/-- JS truthiness test for an optional string request field
(`!x` holds for a missing field and for the empty string). -/
def strFalsy : Option String → Bool
  | none => true
  | some s => s = ""

/-- `GET /api/tasks/:userId`.  `fetchOutcome` is the outcome of the Firestore
query (and of mapping the documents); a throw anywhere in the `try` lands in
the `catch`, which answers 500. -/
def getTasks (fetchOutcome : Except String (List StoredTask)) : Response :=
  match fetchOutcome with
  | .ok tasks => { status := 200, body := .tasksList tasks }
  | .error _ => { status := 500, body := .jsonError "Failed to fetch tasks" }

/-- `POST /api/tasks`.  `parseOutcome` is the outcome of
`insertTaskSchema.parse`, `addDocOutcome` of the Firestore `addDoc` (returning
the new document id).  Any throw is answered 400 with `error.message`. -/
def createTask (userId : String) (parseOutcome : Except String ValidatedTask) (now : Nat)
    (addDocOutcome : Except String String) (store : Store) : Store × Response :=
  match parseOutcome with
  | .error e => (store, { status := 400, body := .jsonError (msgOr e "Failed to create task") })
  | .ok v =>
    match addDocOutcome with
    | .error e => (store, { status := 400, body := .jsonError (msgOr e "Failed to create task") })
    | .ok docId =>
      let newTask := createTaskDoc userId v now
      (store ++ [{ id := docId, doc := newTask }], { status := 200, body := .taskOk docId newTask })

/-- `PUT /api/tasks/:id` (store mutation not modelled; only the response shape
matters for the error-handling claim). -/
def updateTask (id : String) (parseOutcome updateOutcome : Except String Unit) : Response :=
  match parseOutcome with
  | .error e => { status := 400, body := .jsonError (msgOr e "Failed to update task") }
  | .ok _ =>
    match updateOutcome with
    | .error e => { status := 400, body := .jsonError (msgOr e "Failed to update task") }
    | .ok _ => { status := 200, body := .successOk id }

/-- `DELETE /api/tasks/:id`. -/
def deleteTask (id : String) (deleteOutcome : Except String Unit) : Response :=
  match deleteOutcome with
  | .error _ => { status := 500, body := .jsonError "Failed to delete task" }
  | .ok _ => { status := 200, body := .successOk id }

/-- The `updateDoc(taskRef, {completed: true, updatedAt: now})` write of the
complete endpoint: every document with the given id gets `completed := true`
and a fresh `updatedAt`; all other fields and documents are untouched. -/
def completeStore (store : Store) (id : String) (now : Nat) : Store :=
  store.map (fun s =>
    if s.id = id then { id := s.id, doc := { s.doc with completed := true, updatedAt := now } }
    else s)

/-- JS `taskData.xpReward || 50`: both a missing field and a stored `0` are
falsy and yield the default 50. -/
def xpOr50 : Option Nat → Nat
  | some v => if v = 0 then 50 else v
  | none => 50

/-- `POST /api/tasks/:id/complete`.  `getOutcome` is the outcome of the
`getDoc` network call, `updateOutcome` of the `updateDoc`; a throw in either
is answered 500 by the `catch`.  A successfully fetched but missing document
answers 404 before anything is written. -/
def completeTask (store : Store) (id : String) (now : Nat)
    (getOutcome updateOutcome : Except String Unit) : Store × Response :=
  match getOutcome with
  | .error _ => (store, { status := 500, body := .jsonError "Failed to complete task" })
  | .ok _ =>
    match store.find? (fun s => s.id = id) with
    | none => (store, { status := 404, body := .jsonError "Task not found" })
    | some t =>
      match updateOutcome with
      | .error _ => (store, { status := 500, body := .jsonError "Failed to complete task" })
      | .ok _ =>
        (completeStore store id now,
         { status := 200, body := .completeOk id (xpOr50 t.doc.xpReward) })

/-- A Gemini HTTP response: the `ok` flag and the extracted
`candidates[0]?.content?.parts[0]?.text`. -/
structure GeminiResp where
  ok : Bool
  text : Option String
deriving DecidableEq

/-- `POST /api/ai/parse-task`.  `fetchOutcome` is the network outcome of the
Gemini call; `parsedOutcome` combines the regex match, `JSON.parse` and
`insertTaskSchema.parse` of the AI text; `addDocOutcome` the Firestore write.
Every throw is answered 500 with `error.message`. -/
def parseTask (userId prompt : Option String) (fetchOutcome : Except String GeminiResp)
    (parsedOutcome : Except String ValidatedTask) (now : Nat)
    (addDocOutcome : Except String String) (store : Store) : Store × Response :=
  if strFalsy prompt ∨ strFalsy userId then
    (store, { status := 400, body := .jsonError "Missing prompt or userId" })
  else
    match fetchOutcome with
    | .error e => (store, { status := 500, body := .jsonError (msgOr e "Failed to parse task") })
    | .ok r =>
      if ¬ r.ok then
        (store, { status := 500, body := .jsonError "Gemini API request failed" })
      else
        match r.text with
        | none => (store, { status := 500, body := .jsonError "No response from AI" })
        | some _ =>
          match parsedOutcome with
          | .error e =>
            (store, { status := 500, body := .jsonError (msgOr e "Failed to parse task") })
          | .ok v =>
            match addDocOutcome with
            | .error e =>
              (store, { status := 500, body := .jsonError (msgOr e "Failed to parse task") })
            | .ok docId =>
              let newTask := parseTaskDoc (userId.getD "") v now
              (store ++ [{ id := docId, doc := newTask }],
               { status := 200, body := .taskOk docId newTask })

/-- The response built by the `catch` of `POST /api/chat`. -/
def chatCatch : Response :=
  { status := 500
    body := .chatFail "Failed to get response"
      "I\x27m having trouble connecting right now. Please try again in a moment!" }

/-- `POST /api/chat`.  `detectFetch` is the network outcome of the
task-detection Gemini call (a network throw reaches the outer `catch`);
`detectInner` the outcome of the inner `try` that parses the detection JSON
and validates the task (`.ok none` when `isTaskRequest` is false or the
payload unusable; a throw is swallowed); `addDocOutcome` the Firestore write,
also inside the inner `try`; `chatFetch` the final chat Gemini call. -/
def chatHandler (message userId : Option String)
    (detectFetch : Except String GeminiResp)
    (detectInner : Except String (Option ValidatedTask))
    (addDocOutcome : Except String String) (now : Nat)
    (chatFetch : Except String GeminiResp) (store : Store) : Store × Response :=
  if strFalsy message then
    (store, { status := 400, body := .jsonError "Message is required" })
  else
    match detectFetch with
    | .error _ => (store, chatCatch)
    | .ok dr =>
      let afterDetect : Store × Option TaskDoc :=
        if dr.ok then
          match dr.text with
          | some _ =>
            match detectInner with
            | .error _ => (store, none)   -- inner catch: "Could not parse task detection"
            | .ok none => (store, none)
            | .ok (some v) =>
              match userId with
              | none => (store, none)
              | some uid =>
                match addDocOutcome with
                | .error _ => (store, none)   -- swallowed by the inner catch
                | .ok docId =>
                  let doc := chatTaskDoc uid v now
                  (store ++ [{ id := docId, doc := doc }], some doc)
          | none => (store, none)
        else (store, none)
      match chatFetch with
      | .error _ => (afterDetect.1, chatCatch)
      | .ok cr =>
        if ¬ cr.ok then (afterDetect.1, chatCatch)
        else
          match cr.text with
          | none => (afterDetect.1, chatCatch)
          | some reply =>
            (afterDetect.1, { status := 200, body := .chatOk reply afterDetect.2 })

/-- The documents written by the planner loop: the plan is flattened and the
`i`-th created task evaluates `Timestamp.now()` twice, reading the clock at
ticks `2*i` (for `createdAt`) and `2*i+1` (for `updatedAt`). -/
def plannerDocs (userId : String) (plan : List DayPlan) (clock : Nat → Nat) : List TaskDoc :=
  ((plan.map (fun d => d.tasks.map (fun t => (d, t)))).flatten).enum.map
    (fun p => plannerTaskDoc userId p.2.1 p.2.2 (clock (2 * p.1)) (clock (2 * p.1 + 1)))

/-- `POST /api/planner/generate`.  `planOutcome` combines the regex match and
`JSON.parse` of the AI text; `ids` supplies the Firestore ids of the created
documents and `addDocsOutcome` the outcome of the write loop.  Every throw is
answered 500 with `error.message`. -/
def plannerGenerate (userId : Option String) (fetchOutcome : Except String GeminiResp)
    (planOutcome : Except String (List DayPlan)) (clock : Nat → Nat) (ids : Nat → String)
    (addDocsOutcome : Except String Unit) (store : Store) : Store × Response :=
  if strFalsy userId then
    (store, { status := 400, body := .jsonError "User ID required" })
  else
    match fetchOutcome with
    | .error e => (store, { status := 500, body := .jsonError (msgOr e "Failed to generate plan") })
    | .ok r =>
      if ¬ r.ok then
        (store, { status := 500, body := .jsonError "Gemini API request failed" })
      else
        match r.text with
        | none => (store, { status := 500, body := .jsonError "No response from AI" })
        | some _ =>
          match planOutcome with
          | .error e =>
            (store, { status := 500, body := .jsonError (msgOr e "Failed to generate plan") })
          | .ok plan =>
            match addDocsOutcome with
            | .error e =>
              (store, { status := 500, body := .jsonError (msgOr e "Failed to generate plan") })
            | .ok _ =>
              let docs := plannerDocs (userId.getD "") plan clock
              let stored := docs.enum.map (fun p => ({ id := ids p.1, doc := p.2 } : StoredTask))
              (store ++ stored, { status := 200, body := .plannerOk docs.length })

/-! ### Helper lemmas -/

@[simp] lemma strContains_slouch_slouch : strContains "Slouching detected" "Slouching" = true := by
  decide

@[simp] lemma strContains_leanl_slouch : strContains "Leaning left" "Slouching" = false := by
  decide

@[simp] lemma strContains_leanr_slouch : strContains "Leaning right" "Slouching" = false := by
  decide

@[simp] lemma strContains_fwd_slouch : strContains "Forward head posture" "Slouching" = false := by
  decide

@[simp] lemma strContains_slouch_leanl : strContains "Slouching detected" "Leaning left" = false := by
  decide

@[simp] lemma strContains_leanl_leanl : strContains "Leaning left" "Leaning left" = true := by
  decide

@[simp] lemma strContains_leanr_leanl : strContains "Leaning right" "Leaning left" = false := by
  decide

@[simp] lemma strContains_fwd_leanl : strContains "Forward head posture" "Leaning left" = false := by
  decide

@[simp] lemma strContains_slouch_leanr : strContains "Slouching detected" "Leaning right" = false := by
  decide

@[simp] lemma strContains_leanl_leanr : strContains "Leaning left" "Leaning right" = false := by
  decide

@[simp] lemma strContains_leanr_leanr : strContains "Leaning right" "Leaning right" = true := by
  decide

@[simp] lemma strContains_fwd_leanr : strContains "Forward head posture" "Leaning right" = false := by
  decide

@[simp] lemma strContains_slouch_fwd : strContains "Slouching detected" "Forward head" = false := by
  decide

@[simp] lemma strContains_leanl_fwd : strContains "Leaning left" "Forward head" = false := by
  decide

@[simp] lemma strContains_leanr_fwd : strContains "Leaning right" "Forward head" = false := by
  decide

@[simp] lemma strContains_fwd_fwd : strContains "Forward head posture" "Forward head" = true := by
  decide

/-- Closed form of `analyzePosture` on a pose carrying all five required
keypoints: the issue flags are independent threshold comparisons, the score is
100 minus the flagged deductions (clamped at 0), and the status follows the
fixed precedence slouching, leaning left, leaning right, forward head. -/
lemma posture_spec (kps : List Keypoint) (rest : List Pose) (nose ls rs lh rh : Keypoint)
    (hn : findKp kps "nose" = some nose)
    (hls : findKp kps "left_shoulder" = some ls)
    (hrs : findKp kps "right_shoulder" = some rs)
    (hlh : findKp kps "left_hip" = some lh)
    (hrh : findKp kps "right_hip" = some rh) :
    analyzePosture (⟨kps⟩ :: rest) =
      { status :=
          if |(ls.y + rs.y) / 2 - (lh.y + rh.y) / 2| < 150 then "slouching"
          else if |ls.y - rs.y| > 20 ∧ ls.y > rs.y then "leaning_left"
          else if |ls.y - rs.y| > 20 then "leaning_right"
          else if |nose.x - (ls.x + rs.x) / 2| > 30 then "forward_head"
          else "good"
        score :=
          max 0 (100 - (if |(ls.y + rs.y) / 2 - (lh.y + rh.y) / 2| < 150 then 30 else 0)
                     - (if |ls.y - rs.y| > 20 then 20 else 0)
                     - (if |nose.x - (ls.x + rs.x) / 2| > 30 then 25 else 0))
        issues :=
          (if |(ls.y + rs.y) / 2 - (lh.y + rh.y) / 2| < 150 then ["Slouching detected"] else [])
          ++ (if |ls.y - rs.y| > 20 then
                [if ls.y > rs.y then "Leaning left" else "Leaning right"] else [])
          ++ (if |nose.x - (ls.x + rs.x) / 2| > 30 then ["Forward head posture"] else []) } := by
  simp only [analyzePosture, hn, hls, hrs, hlh, hrh]
  by_cases hS : |(ls.y + rs.y) / 2 - (lh.y + rh.y) / 2| < 150 <;>
    by_cases hD : |ls.y - rs.y| > 20 <;>
      by_cases hL : ls.y > rs.y <;>
        by_cases hF : |nose.x - (ls.x + rs.x) / 2| > 30 <;>
          simp [hS, hD, hL, hF]

/-- The eyebrow branch of `classifyMood` yields nothing, `Stressed` or `Sad`. -/
lemma moodFromEyebrows_cases (l : List FaceLandmark) :
    moodFromEyebrows l = none ∨ moodFromEyebrows l = some "Stressed" ∨
      moodFromEyebrows l = some "Sad" := by
  simp only [moodFromEyebrows]
  repeat' split
  all_goals simp

/-- The landmark-only path of `classifyMood` yields one of four labels. -/
lemma moodFromLandmarks_mem (l : List FaceLandmark) :
    moodFromLandmarks l ∈ (["Happy", "Neutral", "Sad", "Stressed"] : List String) := by
  unfold moodFromLandmarks
  split
  · simp
  · rcases moodFromEyebrows_cases l with h | h | h <;> simp [h]

/-- `classifyMood` yields one of the five `MoodType` labels. -/
lemma classifyMood_mem (l : List FaceLandmark) (b : Option (List BlendEntry)) :
    classifyMood l b ∈
      (["Happy", "Neutral", "Sad", "Stressed", "Analyzing..."] : List String) := by
  have hm := moodFromLandmarks_mem l
  simp only [List.mem_cons, List.not_mem_nil, or_false] at hm
  simp only [classifyMood]
  split
  · simp
  · split
    · split_ifs <;> rcases hm with h | h | h | h <;> simp [h]
    · rcases hm with h | h | h | h <;> simp [h]

/-- `analyzePosture` yields one of the five `PostureStatus` labels. -/
lemma analyzePosture_status_mem (poses : List Pose) :
    (analyzePosture poses).status ∈
      (["good", "slouching", "leaning_left", "leaning_right", "forward_head"] :
        List String) := by
  simp only [analyzePosture]
  repeat' split
  all_goals simp

/-- The `emotionMap` lookup with the `|| 'Neutral'` fallback yields one of six labels. -/
lemma emotionMap_mem (s : String) :
    (emotionMap s).getD "Neutral" ∈
      (["Happy", "Sad", "Angry", "Neutral", "Surprised", "Stressed"] : List String) := by
  unfold emotionMap
  repeat' split
  all_goals simp

/-- `analyzePosture` on a pose missing one of the five required keypoints. -/
lemma analyzePosture_missing (kps : List Keypoint) (rest : List Pose)
    (h : findKp kps "nose" = none ∨ findKp kps "left_shoulder" = none ∨
         findKp kps "right_shoulder" = none ∨ findKp kps "left_hip" = none ∨
         findKp kps "right_hip" = none) :
    analyzePosture (⟨kps⟩ :: rest) =
      { status := "good", score := 0, issues := ["Insufficient keypoints detected"] } := by
  cases hn : findKp kps "nose" <;> cases hls : findKp kps "left_shoulder" <;>
    cases hrs : findKp kps "right_shoulder" <;> cases hlh : findKp kps "left_hip" <;>
      cases hrh : findKp kps "right_hip" <;>
        simp_all [analyzePosture]

/-! ### Parametric input families for the threshold claims -/

/-- Keypoints with torso length `t` and every other measured quantity zero. -/
def mkTorsoKps (t : ℚ) : List Keypoint :=
  [⟨"nose", 0, 0⟩, ⟨"left_shoulder", -50, 100⟩, ⟨"right_shoulder", 50, 100⟩,
   ⟨"left_hip", -50, 100 + t⟩, ⟨"right_hip", 50, 100 + t⟩]

/-- Keypoints with shoulder height difference `2*e` (left shoulder lower on
screen for `e > 0`), torso length 200 and head offset zero. -/
def mkLeanKps (e : ℚ) : List Keypoint :=
  [⟨"nose", 0, 0⟩, ⟨"left_shoulder", -50, 100 + e⟩, ⟨"right_shoulder", 50, 100 - e⟩,
   ⟨"left_hip", -50, 300⟩, ⟨"right_hip", 50, 300⟩]

/-- Keypoints with head-forward offset `h`, torso length 200 and level shoulders. -/
def mkHeadKps (h : ℚ) : List Keypoint :=
  [⟨"nose", h, 100⟩, ⟨"left_shoulder", -50, 100⟩, ⟨"right_shoulder", 50, 100⟩,
   ⟨"left_hip", -50, 300⟩, ⟨"right_hip", 50, 300⟩]

/-- Keypoints with torso length 100 (slouching) and shoulder difference `2*e`:
the family on which the shoulder-difference threshold is masked. -/
def mkSlouchLeanKps (e : ℚ) : List Keypoint :=
  [⟨"nose", 0, 0⟩, ⟨"left_shoulder", -50, 100 + e⟩, ⟨"right_shoulder", 50, 100 - e⟩,
   ⟨"left_hip", -50, 200⟩, ⟨"right_hip", 50, 200⟩]

lemma analyzePosture_mkTorso (t : ℚ) (ht : 0 ≤ t) :
    (analyzePosture [⟨mkTorsoKps t⟩]).status =
      if t < 150 then "slouching" else "good" := by
  rw [posture_spec (mkTorsoKps t) [] _ _ _ _ _ rfl rfl rfl rfl rfl]
  dsimp only
  rw [show |((100 : ℚ) + 100) / 2 - ((100 + t) + (100 + t)) / 2| = t from by
        rw [abs_sub_comm,
          show ((100 + t) + (100 + t)) / 2 - ((100 : ℚ) + 100) / 2 = t from by ring,
          abs_of_nonneg ht],
      show |(100 : ℚ) - 100| = 0 from by norm_num,
      show |(0 : ℚ) - (-50 + 50) / 2| = 0 from by norm_num]
  norm_num

lemma analyzePosture_leanFamily (e : ℚ) (he : 0 ≤ e) :
    (analyzePosture [⟨mkLeanKps e⟩]).status =
      if 2 * e > 20 then "leaning_left" else "good" := by
  rw [posture_spec (mkLeanKps e) [] _ _ _ _ _ rfl rfl rfl rfl rfl]
  dsimp only
  rw [show |((100 + e) + (100 - e)) / 2 - ((300 : ℚ) + 300) / 2| = 200 from by
        rw [show ((100 + e) + (100 - e)) / 2 - ((300 : ℚ) + 300) / 2 = -200 from by ring]
        norm_num,
      show |(100 + e) - ((100 : ℚ) - e)| = 2 * e from by
        rw [show (100 + e) - ((100 : ℚ) - e) = 2 * e from by ring,
          abs_of_nonneg (by linarith)],
      show |(0 : ℚ) - (-50 + 50) / 2| = 0 from by norm_num]
  norm_num
  split_ifs with hA hB hB'
  · rfl
  · exact absurd hA.1 hB
  · exact absurd ⟨hB', by linarith⟩ hA
  · rfl

lemma analyzePosture_mkHead (h : ℚ) (hh : 0 ≤ h) :
    (analyzePosture [⟨mkHeadKps h⟩]).status =
      if h > 30 then "forward_head" else "good" := by
  rw [posture_spec (mkHeadKps h) [] _ _ _ _ _ rfl rfl rfl rfl rfl]
  dsimp only
  rw [show |((100 : ℚ) + 100) / 2 - ((300 : ℚ) + 300) / 2| = 200 from by norm_num,
      show |(100 : ℚ) - 100| = 0 from by norm_num,
      show |h - ((-50 : ℚ) + 50) / 2| = h from by
        rw [show h - ((-50 : ℚ) + 50) / 2 = h from by ring, abs_of_nonneg hh]]
  norm_num

lemma analyzePosture_slouchMask (e : ℚ) :
    (analyzePosture [⟨mkSlouchLeanKps e⟩]).status = "slouching" := by
  rw [posture_spec (mkSlouchLeanKps e) [] _ _ _ _ _ rfl rfl rfl rfl rfl]
  dsimp only
  rw [show |((100 + e) + (100 - e)) / 2 - ((200 : ℚ) + 200) / 2| = 100 from by
        rw [show ((100 + e) + (100 - e)) / 2 - ((200 : ℚ) + 200) / 2 = -100 from by ring]
        norm_num]
  norm_num

/-- Landmark family realising eyebrow value `r`: 301 landmarks with nose tip
at height 1, chin at height 2, both eyebrow points at height `1 - r`. -/
def mkMoodLandmarks (r : ℚ) : List FaceLandmark :=
  (List.range 301).map (fun i =>
    if i = 1 then ⟨0, 1, 0⟩
    else if i = 152 then ⟨0, 2, 0⟩
    else if i = 70 ∨ i = 300 then ⟨0, 1 - r, 0⟩
    else ⟨0, 0, 0⟩)

lemma mkMood_length (r : ℚ) : (mkMoodLandmarks r).length = 301 := by
  simp [mkMoodLandmarks]

lemma mkMood_get (r : ℚ) (i : Nat) (hi : i < 301) :
    (mkMoodLandmarks r)[i]? =
      some (if i = 1 then ⟨0, 1, 0⟩
            else if i = 152 then ⟨0, 2, 0⟩
            else if i = 70 ∨ i = 300 then ⟨0, 1 - r, 0⟩
            else ⟨0, 0, 0⟩) := by
  simp [mkMoodLandmarks, hi]

lemma classifyMood_mkMood (r : ℚ) :
    classifyMood (mkMoodLandmarks r) none =
      if r < 3/10 then "Stressed" else if r < 4/10 then "Sad" else "Neutral" := by
  have hlen := mkMood_length r
  have h70 := mkMood_get r 70 (by norm_num)
  have h300 := mkMood_get r 300 (by norm_num)
  have h1 := mkMood_get r 1 (by norm_num)
  have h152 := mkMood_get r 152 (by norm_num)
  norm_num at h70 h300 h1 h152
  have hsmile : detectSmile (mkMoodLandmarks r) = false := by
    simp [detectSmile, hlen]
  simp only [classifyMood, moodFromLandmarks, moodFromEyebrows, hlen, hsmile]
  norm_num
  rw [h70, h300, h1, h152]
  dsimp only
  rw [show |(1 : ℚ) - 2| = 1 from by
        rw [show (1 : ℚ) - 2 = -1 from by norm_num, abs_neg, abs_one]]
  norm_num
  split_ifs <;> simp

/-- `historyUpdate` never grows a history beyond 20 entries. -/
lemma historyUpdate_length_le (prev : List HistoryEntry) (e : HistoryEntry)
    (h : prev.length ≤ 20) : (historyUpdate prev e).length ≤ 20 := by
  unfold historyUpdate
  split
  · simp; omega
  · split
    · simp; omega
    · exact h

/-- Folding `historyUpdate` preserves the 20-entry bound. -/
lemma foldl_historyUpdate_le (es : List HistoryEntry) :
    ∀ acc : List HistoryEntry, acc.length ≤ 20 →
      (es.foldl historyUpdate acc).length ≤ 20 := by
  induction es with
  | nil => intro acc h; simpa using h
  | cons e es ih => intro acc h; exact ih _ (historyUpdate_length_le acc e h)

/-! ### The claims -/

/-- **C1** (amended).  `classifyMood` only ever emits the five mood labels and
`analyzePosture` only the five posture labels; `detectEmotion`, however, draws
from the six face-api-derived labels, which include `'Angry'` and
`'Surprised'` — two values outside the claimed enumeration. -/
theorem C1_classifier_labels_amended :
    (∀ (l : List FaceLandmark) (b : Option (List BlendEntry)),
        classifyMood l b ∈
          (["Happy", "Neutral", "Sad", "Stressed", "Analyzing..."] : List String)) ∧
    (∀ poses : List Pose,
        (analyzePosture poses).status ∈
          (["good", "slouching", "leaning_left", "leaning_right", "forward_head"] :
            List String)) ∧
    (∀ e : FaceExpressions, ∃ res : EmotionResult,
        detectEmotion (some e) = some res ∧
          res.expression ∈
            (["Happy", "Sad", "Angry", "Neutral", "Surprised", "Stressed"] : List String)) :=
  ⟨classifyMood_mem, analyzePosture_status_mem, fun _ => ⟨_, rfl, emotionMap_mem _⟩⟩

/-- Expression scores dominated by `angry`. -/
def angryExpressions : FaceExpressions :=
  { neutral := 0, happy := 0, sad := 0, angry := 9/10, fearful := 0, disgusted := 0
    surprised := 0 }

/-- **C1** counterexample.  On a frame whose dominant face-api expression is
`angry`, `detectEmotion` emits the label `'Angry'`, which is not in the
enumerated mood label set of the claim. -/
theorem C1_counterexample :
    (detectEmotion (some angryExpressions)).map (fun r => r.expression) = some "Angry" ∧
      "Angry" ∉ (["Happy", "Neutral", "Sad", "Stressed", "Analyzing..."] : List String) := by
  constructor
  · norm_num [detectEmotion, maxExpression, expressionEntries, angryExpressions,
      emotionMap, List.foldl]
  · decide

/-- **C2**.  With fewer than 10 face landmarks `classifyMood` answers
`'Analyzing...'`; with an empty pose list, or any of the five required
keypoints missing, `analyzePosture` answers status `'good'`, score 0 and an
explanatory issue.  All classifier functions are total (no exception can
propagate). -/
theorem C2_insufficient_landmarks :
    (∀ (l : List FaceLandmark) (b : Option (List BlendEntry)),
        l.length < 10 → classifyMood l b = "Analyzing...") ∧
    (analyzePosture [] = { status := "good", score := 0, issues := ["No pose detected"] }) ∧
    (∀ (kps : List Keypoint) (rest : List Pose),
        findKp kps "nose" = none ∨ findKp kps "left_shoulder" = none ∨
          findKp kps "right_shoulder" = none ∨ findKp kps "left_hip" = none ∨
          findKp kps "right_hip" = none →
        analyzePosture (⟨kps⟩ :: rest) =
          { status := "good", score := 0, issues := ["Insufficient keypoints detected"] }) := by
  refine ⟨?_, rfl, analyzePosture_missing⟩
  intro l b h
  simp [classifyMood, h]

/-- Witness for C2: the empty landmark list and a pose without keypoints. -/
theorem C2_witness :
    classifyMood [] none = "Analyzing..." ∧
      analyzePosture [⟨[]⟩] =
        { status := "good", score := 0, issues := ["Insufficient keypoints detected"] } :=
  ⟨C2_insufficient_landmarks.1 [] none (by decide),
   C2_insufficient_landmarks.2.2 [] [] (Or.inl rfl)⟩

/-- **C3**.  For a fixed landmark input the mood label, confidence and smiling
flag of `analyzeMood` do not depend on the random seed (which only selects the
encouragement string), and `analyzePosture` is a pure function of its input:
two evaluations agree. -/
theorem C3_deterministic_modulo_encouragement :
    (∀ (l : List FaceLandmark) (b : Option (List BlendEntry)) (r r' : Nat),
        (analyzeMood l b r).mood = (analyzeMood l b r').mood ∧
        (analyzeMood l b r).confidence = (analyzeMood l b r').confidence ∧
        (analyzeMood l b r).isSmilingFlag = (analyzeMood l b r').isSmilingFlag) ∧
    (∀ poses : List Pose, analyzePosture poses = analyzePosture poses) :=
  ⟨fun _ _ _ _ => ⟨rfl, rfl, rfl⟩, fun _ => rfl⟩

/-- **C4** counterexample.  With the torso length fixed at 100 (slouching
flagged), moving the shoulder-height difference from 0 to 60 — across the
threshold 20, all other measured quantities unchanged — leaves the emitted
label at `'slouching'`: the label does not change even once. -/
theorem C4_counterexample :
    (analyzePosture [⟨mkSlouchLeanKps 0⟩]).status =
        (analyzePosture [⟨mkSlouchLeanKps 30⟩]).status ∧
      (analyzePosture [⟨mkSlouchLeanKps 0⟩]).status = "slouching" ∧
      2 * (0 : ℚ) ≤ 20 ∧ 2 * (30 : ℚ) > 20 :=
  ⟨(analyzePosture_slouchMask 0).trans (analyzePosture_slouchMask 30).symm,
   analyzePosture_slouchMask 0, by norm_num, by norm_num⟩

/-- **C4** (amended).  When no other issue is flagged, each threshold flips the
label exactly once: the label is one constant below the threshold and a
different constant above it — torso length against 150, shoulder difference
against 20, head offset against 30, and the eyebrow value against 0.3 and 0.4.
When a higher-precedence issue is present the flip can be masked entirely
(last conjunct). -/
theorem C4_threshold_flips_amended :
    (∀ t : ℚ, 0 ≤ t →
        (analyzePosture [⟨mkTorsoKps t⟩]).status =
          if t < 150 then "slouching" else "good") ∧
    (∀ e : ℚ, 0 ≤ e →
        (analyzePosture [⟨mkLeanKps e⟩]).status =
          if 2 * e > 20 then "leaning_left" else "good") ∧
    (∀ h : ℚ, 0 ≤ h →
        (analyzePosture [⟨mkHeadKps h⟩]).status =
          if h > 30 then "forward_head" else "good") ∧
    (∀ r : ℚ, classifyMood (mkMoodLandmarks r) none =
        if r < 3/10 then "Stressed" else if r < 4/10 then "Sad" else "Neutral") ∧
    (∀ e : ℚ, (analyzePosture [⟨mkSlouchLeanKps e⟩]).status = "slouching") :=
  ⟨analyzePosture_mkTorso, analyzePosture_leanFamily, analyzePosture_mkHead,
   classifyMood_mkMood, analyzePosture_slouchMask⟩

/-- Witness for C4: the torso threshold at 100 and 200. -/
theorem C4_witness :
    (analyzePosture [⟨mkTorsoKps 100⟩]).status = "slouching" ∧
      (analyzePosture [⟨mkTorsoKps 200⟩]).status = "good" := by
  have h1 := C4_threshold_flips_amended.1 100 (by norm_num)
  have h2 := C4_threshold_flips_amended.1 200 (by norm_num)
  rw [if_pos (by norm_num : (100 : ℚ) < 150)] at h1
  rw [if_neg (by norm_num : ¬ (200 : ℚ) < 150)] at h2
  exact ⟨h1, h2⟩

/-- **C5**.  On a pose carrying the five required keypoints, `analyzePosture`
flags slouching iff the shoulder-to-hip vertical distance is below 150, flags
leaning iff the shoulders' vertical difference exceeds 20 (left when the left
shoulder is lower on screen, i.e. has the larger `y`), flags forward head iff
the nose-to-shoulder-midpoint horizontal distance exceeds 30, and picks the
status by the precedence slouching, leaning left, leaning right, forward head. -/
theorem C5_posture_geometry (kps : List Keypoint) (rest : List Pose)
    (nose ls rs lh rh : Keypoint)
    (hn : findKp kps "nose" = some nose)
    (hls : findKp kps "left_shoulder" = some ls)
    (hrs : findKp kps "right_shoulder" = some rs)
    (hlh : findKp kps "left_hip" = some lh)
    (hrh : findKp kps "right_hip" = some rh) :
    ((analyzePosture (⟨kps⟩ :: rest)).status = "slouching" ↔
        |(ls.y + rs.y) / 2 - (lh.y + rh.y) / 2| < 150) ∧
    ((analyzePosture (⟨kps⟩ :: rest)).status = "leaning_left" ↔
        (¬ |(ls.y + rs.y) / 2 - (lh.y + rh.y) / 2| < 150 ∧
          |ls.y - rs.y| > 20 ∧ ls.y > rs.y)) ∧
    ((analyzePosture (⟨kps⟩ :: rest)).status = "leaning_right" ↔
        (¬ |(ls.y + rs.y) / 2 - (lh.y + rh.y) / 2| < 150 ∧
          |ls.y - rs.y| > 20 ∧ ¬ ls.y > rs.y)) ∧
    ((analyzePosture (⟨kps⟩ :: rest)).status = "forward_head" ↔
        (¬ |(ls.y + rs.y) / 2 - (lh.y + rh.y) / 2| < 150 ∧ ¬ |ls.y - rs.y| > 20 ∧
          |nose.x - (ls.x + rs.x) / 2| > 30)) ∧
    ("Slouching detected" ∈ (analyzePosture (⟨kps⟩ :: rest)).issues ↔
        |(ls.y + rs.y) / 2 - (lh.y + rh.y) / 2| < 150) ∧
    ("Leaning left" ∈ (analyzePosture (⟨kps⟩ :: rest)).issues ↔
        (|ls.y - rs.y| > 20 ∧ ls.y > rs.y)) ∧
    ("Leaning right" ∈ (analyzePosture (⟨kps⟩ :: rest)).issues ↔
        (|ls.y - rs.y| > 20 ∧ ¬ ls.y > rs.y)) ∧
    ("Forward head posture" ∈ (analyzePosture (⟨kps⟩ :: rest)).issues ↔
        |nose.x - (ls.x + rs.x) / 2| > 30) := by
  rw [posture_spec kps rest nose ls rs lh rh hn hls hrs hlh hrh]
  by_cases hS : |(ls.y + rs.y) / 2 - (lh.y + rh.y) / 2| < 150 <;>
    by_cases hD : |ls.y - rs.y| > 20 <;>
      by_cases hL : ls.y > rs.y <;>
        by_cases hF : |nose.x - (ls.x + rs.x) / 2| > 30 <;>
          simp [hS, hD, hL, hF]

/-- A pose with all five keypoints and no posture issue. -/
def goodKps : List Keypoint :=
  [⟨"nose", 0, 100⟩, ⟨"left_shoulder", -50, 100⟩, ⟨"right_shoulder", 50, 100⟩,
   ⟨"left_hip", -50, 300⟩, ⟨"right_hip", 50, 300⟩]

/-- Witness for C5 on a concrete healthy pose. -/
theorem C5_witness : (analyzePosture [⟨goodKps⟩]).status ≠ "slouching" := by
  have h := (C5_posture_geometry goodKps [] _ _ _ _ _ rfl rfl rfl rfl rfl).1
  intro hs
  have hc := h.mp hs
  norm_num at hc

/-- **C6**.  Starting from the empty history set by `startAnalysis`, any run of
the `setHistory` updater keeps at most 20 entries; every updating step either
leaves the history unchanged (a duplicate of the last entry) or appends the
newest entry after at most the 19 most recent previous entries (a suffix of
the previous history). -/
theorem C6_history_bound :
    (∀ es : List HistoryEntry, (es.foldl historyUpdate startHistory).length ≤ 20) ∧
    (∀ (prev : List HistoryEntry) (e : HistoryEntry),
        historyUpdate prev e = prev ∨
          (historyUpdate prev e = prev.drop (prev.length - 19) ++ [e] ∧
            (prev.drop (prev.length - 19)).length ≤ 19 ∧
            (prev.drop (prev.length - 19)) <:+ prev)) ∧
    startHistory = [] := by
  refine ⟨fun es => foldl_historyUpdate_le es startHistory (by simp [startHistory]), ?_, rfl⟩
  intro prev e
  unfold historyUpdate
  split
  · right; exact ⟨rfl, by simp; omega, List.drop_suffix _ _⟩
  · split
    · right; exact ⟨rfl, by simp; omega, List.drop_suffix _ _⟩
    · left; rfl

/-- A 4xx/5xx answer carrying one of the JSON error payloads. -/
def validErrorResponse (r : Response) : Prop :=
  400 ≤ r.status ∧ r.status < 600 ∧ isErrorBody r.body = true

/-- A handler answer is either the 200 success or an error JSON with a
4xx/5xx status. -/
def handledResponse (r : Response) : Prop :=
  r.status = 200 ∨ validErrorResponse r

/-- An effect outcome that models a thrown error. -/
def isErr {α : Type} : Except String α → Prop
  | .error _ => True
  | .ok _ => False

/-- **C7** counterexample.  An error thrown while handling a chat request —
here the task-detection JSON parse / task creation step failing — is swallowed
by the inner catch of `POST /api/chat` (routes.ts lines 375-377, a console
log), and the request is then answered 200 with a normal chat body rather than
with a 4xx/5xx error payload. -/
theorem C7_counterexample :
    (chatHandler (some "hi") (some "u") (.ok { ok := true, text := some "det" })
        (.error "Could not parse task detection") (.ok "doc0") 5
        (.ok { ok := true, text := some "reply" }) []).2 =
      { status := 200, body := .chatOk "reply" none } ∧
      isErrorBody (.chatOk "reply" (none : Option TaskDoc)) = false ∧
      ¬ (400 : Nat) ≤ 200 :=
  ⟨rfl, rfl, by decide⟩

/-- **C7** (amended).  Every task/AI handler is a total function of its
request and of the outcome of every effect it performs (no exception escapes),
and always answers either 200 or a 4xx/5xx status with a JSON error payload;
an error reaching a handler's outer catch is answered with such an error
payload.  In the chat handler, however, an error thrown inside the inner
task-detection `try` is swallowed and the request can still be answered 200
(last conjunct). -/
theorem C7_errors_caught_amended :
    ((∀ f, handledResponse (getTasks f)) ∧
     (∀ uid p now a store, handledResponse (createTask uid p now a store).2) ∧
     (∀ id p u, handledResponse (updateTask id p u)) ∧
     (∀ id d, handledResponse (deleteTask id d)) ∧
     (∀ store id now g u, handledResponse (completeTask store id now g u).2) ∧
     (∀ uid prompt f p now a store,
        handledResponse (parseTask uid prompt f p now a store).2) ∧
     (∀ msg uid df di a now cf store,
        handledResponse (chatHandler msg uid df di a now cf store).2) ∧
     (∀ uid f p clock ids a store,
        handledResponse (plannerGenerate uid f p clock ids a store).2)) ∧
    ((∀ f, isErr f → validErrorResponse (getTasks f)) ∧
     (∀ uid p now a store, isErr p ∨ isErr a →
        validErrorResponse (createTask uid p now a store).2) ∧
     (∀ id p u, isErr p ∨ isErr u → validErrorResponse (updateTask id p u)) ∧
     (∀ id d, isErr d → validErrorResponse (deleteTask id d)) ∧
     (∀ store id now g u, isErr g ∨ isErr u →
        validErrorResponse (completeTask store id now g u).2) ∧
     (∀ uid prompt f p now a store, isErr f ∨ isErr p ∨ isErr a →
        validErrorResponse (parseTask uid prompt f p now a store).2) ∧
     (∀ msg uid df di a now cf store, isErr df ∨ isErr cf →
        validErrorResponse (chatHandler msg uid df di a now cf store).2) ∧
     (∀ uid f p clock ids a store, isErr f ∨ isErr p ∨ isErr a →
        validErrorResponse (plannerGenerate uid f p clock ids a store).2)) ∧
    (∀ msg uid dt e a now reply store, strFalsy msg = false →
        (chatHandler msg uid (.ok { ok := true, text := some dt }) (.error e) a now
          (.ok { ok := true, text := some reply }) store).2 =
          { status := 200, body := .chatOk reply none }) := by
  refine ⟨⟨?_, ?_, ?_, ?_, ?_, ?_, ?_, ?_⟩, ⟨?_, ?_, ?_, ?_, ?_, ?_, ?_, ?_⟩, ?_⟩
  · intro f
    unfold getTasks
    repeat' split
    all_goals simp [handledResponse, validErrorResponse, isErrorBody]
  · intro uid p now a store
    unfold createTask
    repeat' split
    all_goals simp [handledResponse, validErrorResponse, isErrorBody]
  · intro id p u
    unfold updateTask
    repeat' split
    all_goals simp [handledResponse, validErrorResponse, isErrorBody]
  · intro id d
    unfold deleteTask
    repeat' split
    all_goals simp [handledResponse, validErrorResponse, isErrorBody]
  · intro store id now g u
    unfold completeTask
    repeat' split
    all_goals simp [handledResponse, validErrorResponse, isErrorBody]
  · intro uid prompt f p now a store
    unfold parseTask
    repeat' split
    all_goals simp [handledResponse, validErrorResponse, isErrorBody]
  · intro msg uid df di a now cf store
    simp only [chatHandler]
    repeat' split
    all_goals simp [handledResponse, validErrorResponse, isErrorBody, chatCatch]
  · intro uid f p clock ids a store
    unfold plannerGenerate
    repeat' split
    all_goals simp [handledResponse, validErrorResponse, isErrorBody]
  · intro f h
    cases f <;> simp_all [getTasks, validErrorResponse, isErrorBody, isErr]
  · intro uid p now a store h
    cases p <;> cases a <;>
      simp_all [createTask, validErrorResponse, isErrorBody, isErr]
  · intro id p u h
    cases p <;> cases u <;>
      simp_all [updateTask, validErrorResponse, isErrorBody, isErr]
  · intro id d h
    cases d <;> simp_all [deleteTask, validErrorResponse, isErrorBody, isErr]
  · intro store id now g u h
    cases g <;> cases u <;> unfold completeTask <;> repeat' split <;>
      simp_all [validErrorResponse, isErrorBody, isErr]
  · intro uid prompt f p now a store h
    cases f <;> cases p <;> cases a <;> unfold parseTask <;> repeat' split <;>
      simp_all [validErrorResponse, isErrorBody, isErr]
  · intro msg uid df di a now cf store h
    cases df <;> cases cf <;> simp only [chatHandler] <;> repeat' split <;>
      simp_all [validErrorResponse, isErrorBody, isErr, chatCatch]
  · intro uid f p clock ids a store h
    cases f <;> cases p <;> cases a <;> unfold plannerGenerate <;> repeat' split <;>
      simp_all [validErrorResponse, isErrorBody, isErr]
  · intro msg uid dt e a now reply store hmsg
    simp [chatHandler, hmsg]

/-- Witness for C7: a failed tasks fetch is answered with a 5xx error JSON. -/
theorem C7_witness : validErrorResponse (getTasks (.error "network down")) :=
  C7_errors_caught_amended.2.1.1 (.error "network down") trivial

/-- A store holding one task whose stored `xpReward` is 0. -/
def storeXpZero : Store :=
  [{ id := "t1",
     doc := { userId := "u", title := "t", description := "", scheduledTime := 0,
              duration := 0, xpReward := some 0, category := none, autoGenerated := false,
              completed := false, notificationSent := false, createdAt := 0,
              updatedAt := 0 } }]

/-- **C8** counterexample.  For a stored task whose `xpReward` is 0, the
complete endpoint responds with 50 — not with the task's stored value — because
`taskData.xpReward || 50` treats the stored 0 as falsy. -/
theorem C8_counterexample :
    storeXpZero.head?.map (fun s => s.doc.xpReward) = some (some 0) ∧
      (completeTask storeXpZero "t1" 7 (.ok ()) (.ok ())).2 =
        { status := 200, body := .completeOk "t1" 50 } ∧
      (50 : Nat) ≠ 0 :=
  ⟨rfl, rfl, by decide⟩

/-- **C8** (amended).  If no task with the given id exists the endpoint answers
404 with an error payload and leaves the store unchanged; otherwise it marks
every document with that id completed with a fresh `updatedAt`, leaves all
other documents untouched, and responds with the stored `xpReward` — except
that a missing **or zero** stored value is answered as 50. -/
theorem C8_complete_amended :
    (∀ (store : Store) (id : String) (now : Nat) (u : Except String Unit),
        store.find? (fun s => s.id = id) = none →
          (completeTask store id now (.ok ()) u).1 = store ∧
          (completeTask store id now (.ok ()) u).2 =
            { status := 404, body := .jsonError "Task not found" }) ∧
    (∀ (store : Store) (id : String) (now : Nat) (t : StoredTask),
        store.find? (fun s => s.id = id) = some t →
          (∀ v, t.doc.xpReward = some v → v ≠ 0 →
              (completeTask store id now (.ok ()) (.ok ())).2 =
                { status := 200, body := .completeOk id v }) ∧
          (t.doc.xpReward = none ∨ t.doc.xpReward = some 0 →
              (completeTask store id now (.ok ()) (.ok ())).2 =
                { status := 200, body := .completeOk id 50 }) ∧
          (∀ s ∈ (completeTask store id now (.ok ()) (.ok ())).1,
              (s.id = id → s.doc.completed = true ∧ s.doc.updatedAt = now) ∧
              (s.id ≠ id → s ∈ store))) := by
  constructor
  · intro store id now u h
    simp [completeTask, h]
  · intro store id now t h
    refine ⟨?_, ?_, ?_⟩
    · intro v hv hv0
      simp [completeTask, h, xpOr50, hv, hv0]
    · intro hv
      rcases hv with hv | hv <;> simp [completeTask, h, xpOr50, hv]
    · intro s hs
      have hs' : s ∈ completeStore store id now := by
        simpa [completeTask, h] using hs
      simp only [completeStore, List.mem_map] at hs'
      obtain ⟨a, ha, hae⟩ := hs'
      subst hae
      by_cases hc : a.id = id
      · simp [hc]
      · simp [hc, ha]

/-- Witness for C8: completing a missing task id on the empty store. -/
theorem C8_witness :
    (completeTask [] "t1" 3 (.ok ()) (.ok ())).1 = [] ∧
      (completeTask [] "t1" 3 (.ok ()) (.ok ())).2 =
        { status := 404, body := .jsonError "Task not found" } :=
  C8_complete_amended.1 [] "t1" 3 (.ok ()) rfl

/-- **C9**.  The posture score always lies in [0, 100]; on a pose with all
five required keypoints it equals 100 minus 30 for slouching, 20 for leaning
and 25 for forward head (clamped below at 0), it equals 100 exactly when the
issue list is empty, and the issue list is empty exactly when the status is
`'good'`. -/
theorem C9_score_range :
    (∀ poses : List Pose,
        0 ≤ (analyzePosture poses).score ∧ (analyzePosture poses).score ≤ 100) ∧
    (∀ (kps : List Keypoint) (rest : List Pose) (nose ls rs lh rh : Keypoint),
        findKp kps "nose" = some nose → findKp kps "left_shoulder" = some ls →
        findKp kps "right_shoulder" = some rs → findKp kps "left_hip" = some lh →
        findKp kps "right_hip" = some rh →
          (analyzePosture (⟨kps⟩ :: rest)).score =
            max 0 (100 - (if |(ls.y + rs.y) / 2 - (lh.y + rh.y) / 2| < 150 then 30 else 0)
                       - (if |ls.y - rs.y| > 20 then 20 else 0)
                       - (if |nose.x - (ls.x + rs.x) / 2| > 30 then 25 else 0)) ∧
          ((analyzePosture (⟨kps⟩ :: rest)).score = 100 ↔
            (analyzePosture (⟨kps⟩ :: rest)).issues = []) ∧
          ((analyzePosture (⟨kps⟩ :: rest)).issues = [] ↔
            (analyzePosture (⟨kps⟩ :: rest)).status = "good")) := by
  constructor
  · intro poses
    match poses with
    | [] => norm_num [analyzePosture]
    | pose :: rest =>
      cases hn : findKp pose.keypoints "nose" <;>
        cases hls : findKp pose.keypoints "left_shoulder" <;>
          cases hrs : findKp pose.keypoints "right_shoulder" <;>
            cases hlh : findKp pose.keypoints "left_hip" <;>
              cases hrh : findKp pose.keypoints "right_hip" <;>
                simp only [analyzePosture, hn, hls, hrs, hlh, hrh] <;>
                  norm_num <;> split_ifs <;> norm_num
  · intro kps rest nose ls rs lh rh hn hls hrs hlh hrh
    rw [posture_spec kps rest nose ls rs lh rh hn hls hrs hlh hrh]
    refine ⟨rfl, ?_, ?_⟩ <;>
      by_cases hS : |(ls.y + rs.y) / 2 - (lh.y + rh.y) / 2| < 150 <;>
        by_cases hD : |ls.y - rs.y| > 20 <;>
          by_cases hF : |nose.x - (ls.x + rs.x) / 2| > 30 <;>
            norm_num [hS, hD, hF] <;> try simp
    all_goals split_ifs <;> simp

/-- Witness for C9 on a concrete healthy pose. -/
theorem C9_witness :
    (analyzePosture [⟨goodKps⟩]).score = 100 ∧ (analyzePosture [⟨goodKps⟩]).issues = [] := by
  have h := C9_score_range.2 goodKps [] _ _ _ _ _ rfl rfl rfl rfl rfl
  have hsc := h.1
  norm_num at hsc
  exact ⟨hsc, (h.2.1).mp hsc⟩

/-- The elements of `plannerDocs` are written not-completed and not-notified. -/
lemma plannerDocs_fields (uid : String) (plan : List DayPlan) (clock : Nat → Nat) :
    ∀ d ∈ plannerDocs uid plan clock,
      d.completed = false ∧ d.notificationSent = false := by
  intro d hd
  simp only [plannerDocs, List.mem_map] at hd
  obtain ⟨p, _, rfl⟩ := hd
  exact ⟨rfl, rfl⟩

/-- The second component of an `enum` element is an element of the list. -/
lemma snd_mem_of_mem_enum {α : Type} {l : List α} {p : Nat × α} (h : p ∈ l.enum) :
    p.2 ∈ l := by
  rw [← List.enum_map_snd l]
  exact List.mem_map_of_mem _ h

/-- A plan with a single task. -/
def planOne : List DayPlan :=
  [{ date := 100,
     tasks := [{ title := "Morning Yoga Session", description := "15 min gentle yoga",
                 hours := 7, minutes := 0, duration := 15, category := "wellness",
                 xpReward := 30 }] }]

/-- **C10** counterexample.  A planner run whose two `Timestamp.now()` readings
for the single created task are the successive instants 0 and 1 writes that
task with `createdAt = 0 ≠ 1 = updatedAt`. -/
theorem C10_counterexample :
    ((plannerGenerate (some "u") (.ok { ok := true, text := some "plan" }) (.ok planOne)
        (fun n => n) (fun _ => "doc0") (.ok ()) []).1.head?.map
      (fun s => (s.doc.createdAt, s.doc.updatedAt))) = some (0, 1) ∧ (0 : Nat) ≠ 1 :=
  ⟨rfl, by decide⟩

/-- **C10** (amended).  Every task document added to the store by the four
creation paths is written with `completed = false` and
`notificationSent = false`; the three single-task paths additionally write
`createdAt` equal to `updatedAt` (one shared clock reading), while the planner
path takes two separate clock readings for `createdAt` and `updatedAt`. -/
theorem C10_created_docs_amended :
    (∀ (uid : String) (p : Except String ValidatedTask) (now : Nat)
        (a : Except String String) (store : Store),
        ∀ s ∈ (createTask uid p now a store).1, s ∈ store ∨
          (s.doc.completed = false ∧ s.doc.notificationSent = false ∧
            s.doc.createdAt = s.doc.updatedAt)) ∧
    (∀ (uid prompt : Option String) (f : Except String GeminiResp)
        (p : Except String ValidatedTask) (now : Nat) (a : Except String String)
        (store : Store),
        ∀ s ∈ (parseTask uid prompt f p now a store).1, s ∈ store ∨
          (s.doc.completed = false ∧ s.doc.notificationSent = false ∧
            s.doc.createdAt = s.doc.updatedAt)) ∧
    (∀ (msg uid : Option String) (df : Except String GeminiResp)
        (di : Except String (Option ValidatedTask)) (a : Except String String) (now : Nat)
        (cf : Except String GeminiResp) (store : Store),
        ∀ s ∈ (chatHandler msg uid df di a now cf store).1, s ∈ store ∨
          (s.doc.completed = false ∧ s.doc.notificationSent = false ∧
            s.doc.createdAt = s.doc.updatedAt)) ∧
    (∀ (uid : Option String) (f : Except String GeminiResp)
        (p : Except String (List DayPlan)) (clock : Nat → Nat) (ids : Nat → String)
        (a : Except String Unit) (store : Store),
        ∀ s ∈ (plannerGenerate uid f p clock ids a store).1, s ∈ store ∨
          (s.doc.completed = false ∧ s.doc.notificationSent = false)) := by
  refine ⟨?_, ?_, ?_, ?_⟩
  · intro uid p now a store s hs
    unfold createTask at hs
    repeat' split at hs
    all_goals simp only [List.mem_append, List.mem_singleton] at hs
    all_goals try exact Or.inl hs
    rcases hs with hs | hs
    · exact Or.inl hs
    · subst hs; exact Or.inr ⟨rfl, rfl, rfl⟩
  · intro uid prompt f p now a store s hs
    unfold parseTask at hs
    repeat' split at hs
    all_goals simp only [List.mem_append, List.mem_singleton] at hs
    all_goals try exact Or.inl hs
    rcases hs with hs | hs
    · exact Or.inl hs
    · subst hs; exact Or.inr ⟨rfl, rfl, rfl⟩
  · intro msg uid df di a now cf store s hs
    simp only [chatHandler] at hs
    repeat' split at hs
    all_goals simp only [List.mem_append, List.mem_singleton] at hs
    all_goals try exact Or.inl hs
    all_goals
      rcases hs with hs | hs
    all_goals try exact Or.inl hs
    all_goals subst hs; exact Or.inr ⟨rfl, rfl, rfl⟩
  · intro uid f p clock ids a store s hs
    unfold plannerGenerate at hs
    repeat' split at hs
    all_goals simp only [List.mem_append, List.mem_map] at hs
    all_goals try exact Or.inl hs
    rcases hs with hs | hs
    · exact Or.inl hs
    · obtain ⟨q, hq, hqe⟩ := hs
      right
      have hf := plannerDocs_fields (Option.getD uid "") _ clock _ (snd_mem_of_mem_enum hq)
      rw [← hqe]
      exact hf

/-- A validated task for the C10 witness. -/
def v0 : ValidatedTask :=
  { title := "t", description := "", scheduledTime := 0, duration := 30, xpReward := 50 }

/-- Witness for C10: the document created by a concrete `POST /api/tasks` run. -/
theorem C10_witness :
    ({ id := "d0", doc := createTaskDoc "u" v0 5 } : StoredTask) ∈ ([] : Store) ∨
      ((createTaskDoc "u" v0 5).completed = false ∧
        (createTaskDoc "u" v0 5).notificationSent = false ∧
        (createTaskDoc "u" v0 5).createdAt = (createTaskDoc "u" v0 5).updatedAt) :=
  C10_created_docs_amended.1 "u" (.ok v0) 5 (.ok "d0") [] _ (by simp [createTask])

end Ria
